import Mathlib

/-!
Shallow embedding of `scripts/process_video_gameplay.py`.

The script assembles a vertical short from a landscape gameplay recording:
it trims the source clip to a fixed cap, decides with a Haar-cascade face
detector whether a webcam overlay is present inside a fixed zone of the
first frame, and composes one of two layouts (webcam + gameplay strip, or
full-bleed zoom) before rendering.

Numeric conventions of the embedding:
* Python floats are modelled as exact rationals (`ℚ`); Python `int(x)` is
  truncation toward zero (`pyInt`); Python `//` is floor division
  (`Int.fdiv`).
* moviepy 1.0.3 semantics used by the script are embedded explicitly:
  `clip.crop` slices the frame array with `pic[int(y1):int(y2), int(x1):int(x2)]`
  (numpy slice semantics, including negative-index wrap-around and
  clipping), and with `x_center`/`width` arguments it sets
  `x1, x2 = x_center - width/2, x_center + width/2`;
  `clip.resize(height=H)` produces frames of size `(int(w*H/h), H)`;
  after both operations the clip's `size` attribute equals the new frame
  shape (`set_make_frame` re-reads it from the frame at t = 0).
* Stateful / IO aspects (cv2 availability, cascade file, frame decoding,
  detector answer, asset existence, render success) are an explicit
  environment record `Env`; `close()` calls are recorded in a trace of
  resource ids.
-/

/-- Target resolution constant: `RESOLUTION = (1080, 1920)`. -/
def RESOLUTION : ℕ × ℕ := (1080, 1920)

/-- Duration cap in seconds: `MAX_DURATION = 180`. -/
def MAX_DURATION : ℚ := 180

/-- A rectangle `(x1, y1, x2, y2)` in source-frame pixel coordinates. -/
structure Rect where
  x1 : ℤ
  y1 : ℤ
  x2 : ℤ
  y2 : ℤ
deriving DecidableEq, Repr

/-- Fixed webcam zone: `WEBCAM_COORDS` is (5, 8, 542, 282). -/
def WEBCAM_COORDS : Rect := ⟨5, 8, 542, 282⟩

/-- Python `int()` applied to a float: truncation toward zero. -/
def pyInt (q : ℚ) : ℤ :=
  if q < 0 then ⌈q⌉ else ⌊q⌋

/-- Python `//`: floor division. -/
def pyFloorDiv (a b : ℤ) : ℤ := Int.fdiv a b

/-- Normalisation of a (possibly negative) index against an axis of length
`n`, as numpy does for slice endpoints: negative indices count from the
end and everything is clipped into `[0, n]`. -/
def npIdx (n : ℕ) (i : ℤ) : ℕ :=
  if i < 0 then ((n : ℤ) + i).toNat else min i.toNat n

/-- Length of the numpy slice `a : b` over an axis of length `n`. -/
def npSliceLen (n : ℕ) (a b : ℤ) : ℕ :=
  npIdx n b - npIdx n a

/-- Frame dimensions produced by moviepy's `crop` fx on a `w × h` clip:
the frame is sliced as `pic[int(y1):int(y2), int(x1):int(x2)]`. -/
def movCrop (w h : ℕ) (x1 y1 x2 y2 : ℚ) : ℕ × ℕ :=
  (npSliceLen w (pyInt x1) (pyInt x2), npSliceLen h (pyInt y1) (pyInt y2))

/-- Frame dimensions produced by moviepy's `resize(height=newH)` on a
`w × h` clip: `newsize = [w * newH / h, newH]`, each component truncated
by `int()` in the resizer. -/
def movResizeH (w h : ℕ) (newH : ℕ) : ℕ × ℕ :=
  ((pyInt ((w : ℚ) * (newH : ℚ) / (h : ℚ))).toNat, newH)

/-- A positioned visual layer: frame width/height and position in
target-resolution pixel space. -/
structure Layer where
  w : ℕ
  h : ℕ
  x : ℤ
  y : ℤ
deriving DecidableEq, Repr

/-- Layer builder `extract_webcam`: crop the fixed webcam zone, resize to height
`int(RESOLUTION[1] * 0.33)`, center horizontally, put at the top. -/
def extract_webcam (w h : ℕ) : Layer :=
  let c := movCrop w h (WEBCAM_COORDS.x1 : ℚ) (WEBCAM_COORDS.y1 : ℚ)
    (WEBCAM_COORDS.x2 : ℚ) (WEBCAM_COORDS.y2 : ℚ)
  let camH := (pyInt ((RESOLUTION.2 : ℚ) * 0.33)).toNat
  let r := movResizeH c.1 c.2 camH
  let x_pos := pyFloorDiv ((RESOLUTION.1 : ℤ) - (r.1 : ℤ)) 2
  ⟨r.1, r.2, x_pos, 0⟩

/-- Layer builder `extract_gameplay`: crop `y1 = WEBCAM_COORDS['y2']`, `y2 = clip.h`
(x-range defaults to the full width), resize to height
`int(RESOLUTION[1] * 0.67)`, center horizontally, place below the webcam
strip at `y = int(RESOLUTION[1] * 0.33)`. -/
def extract_gameplay (w h : ℕ) : Layer :=
  let c := movCrop w h 0 (WEBCAM_COORDS.y2 : ℚ) (w : ℚ) (h : ℚ)
  let gameH := (pyInt ((RESOLUTION.2 : ℚ) * 0.67)).toNat
  let r := movResizeH c.1 c.2 gameH
  let x_pos := pyFloorDiv ((RESOLUTION.1 : ℤ) - (r.1 : ℤ)) 2
  let y_pos := pyInt ((RESOLUTION.2 : ℚ) * 0.33)
  ⟨r.1, r.2, x_pos, y_pos⟩

/-- Layer builder `full_screen_clip`: resize to height `RESOLUTION[1]`, then crop with
`x_center = c.w/2, width = RESOLUTION[0], y_center = c.h/2,
height = RESOLUTION[1]`, positioned at `(0, 0)`. -/
def full_screen_clip (w h : ℕ) : Layer :=
  let r := movResizeH w h RESOLUTION.2
  let c := movCrop r.1 r.2
    ((r.1 : ℚ) / 2 - (RESOLUTION.1 : ℚ) / 2)
    ((r.2 : ℚ) / 2 - (RESOLUTION.2 : ℚ) / 2)
    ((r.1 : ℚ) / 2 + (RESOLUTION.1 : ℚ) / 2)
    ((r.2 : ℚ) / 2 + (RESOLUTION.2 : ℚ) / 2)
  ⟨c.1, c.2, 0, 0⟩

/-- The coordinate clamp performed by `is_face_in_webcam_zone`:
`x1c = max(0, min(w - 1, x1))`, `x2c = max(0, min(w, x2))`, and the same
for `y` with `h`. -/
def clampRect (w h : ℤ) (r : Rect) : Rect :=
  ⟨max 0 (min (w - 1) r.x1), max 0 (min (h - 1) r.y1),
   max 0 (min w r.x2), max 0 (min h r.y2)⟩

/-- Environment of one pipeline run: everything the script reads from the
outside world (source clip properties, cv2 availability, the cascade file,
whether the first frame decodes, the detector's verdict, optional assets,
render success). -/
structure Env where
  duration : ℚ
  w : ℕ
  h : ℕ
  cv2Available : Bool
  cascadeExists : Bool
  frameExtractOk : Bool
  detectorFindsFace : Bool
  bgAssetExists : Bool
  outroExists : Bool
  renderOk : Bool
deriving DecidableEq, Repr

/-- An opened clip handle: trim window into the source plus frame size and
the audio track it carries. -/
structure LoadedClip where
  start : ℚ
  duration : ℚ
  w : ℕ
  h : ℕ
  audioId : ℕ
deriving DecidableEq, Repr

/-- Opening `VideoFileClip(path)`: the whole source, starting at 0. The source's
audio track gets id 0. -/
def VideoFileClip (e : Env) : LoadedClip :=
  ⟨0, e.duration, e.w, e.h, 0⟩

/-- Trimming `clip.subclip(t1, t2)`. -/
def subclip (c : LoadedClip) (t1 t2 : ℚ) : LoadedClip :=
  ⟨c.start + t1, t2 - t1, c.w, c.h, c.audioId⟩

/-- Loader `load_clip`: open the source and trim it to `MAX_DURATION` when it is
longer. -/
def load_clip (e : Env) : LoadedClip :=
  let clip := VideoFileClip e
  if MAX_DURATION < clip.duration then subclip clip 0 MAX_DURATION else clip

/-- Outcome of `is_face_in_webcam_zone`: either a raised `RuntimeError`
(`Except.error`) or the returned boolean, plus whether
`detectMultiScale` was actually invoked. -/
structure FaceCheck where
  result : Except String Bool
  detectorInvoked : Bool
deriving Repr

/-- Classifier `is_face_in_webcam_zone`: availability checks (cv2 import, cascade
file, first-frame extraction) in program order, then the coordinate clamp,
the degenerate-zone early `False`, and finally the detector. -/
def is_face_in_webcam_zone (e : Env) (clip : LoadedClip) : FaceCheck :=
  if e.cv2Available = false then
    ⟨.error "OpenCV (cv2) est absent", false⟩
  else if e.cascadeExists = false then
    ⟨.error "Haarcascade introuvable", false⟩
  else if e.frameExtractOk = false then
    ⟨.error "Impossible de extraire la premiere frame", false⟩
  else
    let c := clampRect (clip.w : ℤ) (clip.h : ℤ) WEBCAM_COORDS
    if c.x2 ≤ c.x1 ∨ c.y2 ≤ c.y1 then
      ⟨.ok false, false⟩
    else
      ⟨.ok e.detectorFindsFace, true⟩

/-- One layer of the composite, bottom-to-top in list order. The three
geometric layers carry the geometry computed from the trimmed clip's
frame size. -/
inductive LayerElem
  | background
  | gameplayL (geo : Layer)
  | webcamL (geo : Layer)
  | fullBleedL (geo : Layer)
  | titleL
  | captionL
deriving DecidableEq, Repr

/-- The composition handed to the renderer: ordered layers, the audio
track attached by `set_audio`, and its duration. -/
structure Plan where
  layers : List LayerElem
  audioId : ℕ
  duration : ℚ
deriving DecidableEq, Repr

/-- Resource id of the source clip (`clip`). -/
def sourceClipId : ℕ := 0

/-- Resource id of the composite (`composed`). -/
def composedId : ℕ := 1

/-- Step `append_end_sequence`: with an outro asset on disk the result is a new
concatenated clip (id 2); without one it is `main_clip` itself. -/
def append_end_sequence (outroExists : Bool) (mainId : ℕ) : ℕ :=
  if outroExists then 2 else mainId

/-- Outcome of one `process_gameplay_clip` run: the returned output path
or the propagated error, the composition that was built (if the run got
that far), and the trace of `close()` calls in order. -/
structure PResult where
  result : Except String String
  plan : Option Plan
  closes : List ℕ
deriving Repr

/-- The composition step (lines 187–199 of the script): from the single
classification boolean, build one of the two layouts over the trimmed
clip and attach the trimmed clip's audio track. -/
def composePlan (face_in_webcam : Bool) (clip : LoadedClip) : Plan :=
  if face_in_webcam then
    ⟨[.background, .gameplayL (extract_gameplay clip.w clip.h),
      .webcamL (extract_webcam clip.w clip.h), .titleL, .captionL],
     clip.audioId, clip.duration⟩
  else
    ⟨[.fullBleedL (full_screen_clip clip.w clip.h), .titleL, .captionL],
     clip.audioId, clip.duration⟩

/-- Driver `process_gameplay_clip`: load and trim, classify (closing the source
clip and re-raising on a classifier `RuntimeError`), build one of the two
layouts from the boolean, append the outro when present, render, and only
then close `clip`, `composed` and `final` in that order.  A rendering
failure propagates before any `close()` is reached. -/
def process_gameplay_clip (e : Env) (output_path : String) (max_duration_seconds : ℚ) :
    PResult :=
  let clip := load_clip e
  match (is_face_in_webcam_zone e clip).result with
  | .error msg => ⟨.error msg, none, [sourceClipId]⟩
  | .ok face_in_webcam =>
    let composed := composePlan face_in_webcam clip
    let finalId := append_end_sequence e.outroExists composedId
    if e.renderOk then
      ⟨.ok output_path, some composed, [sourceClipId, composedId, finalId]⟩
    else
      ⟨.error "write_videofile a echoue", some composed, []⟩

/-! ### Helper lemmas -/

theorem pyInt_eq_floor {q : ℚ} (h : 0 ≤ q) : pyInt q = ⌊q⌋ := by
  unfold pyInt
  rw [if_neg (not_lt.mpr h)]

theorem pyInt_intCast (n : ℤ) : pyInt (n : ℚ) = n := by
  unfold pyInt
  split_ifs with h
  · exact Int.ceil_intCast n
  · exact Int.floor_intCast n

theorem pyInt_eval_nonneg {q : ℚ} {n : ℤ} (h0 : 0 ≤ q) (h1 : (n : ℚ) ≤ q)
    (h2 : q < (n : ℚ) + 1) : pyInt q = n := by
  rw [pyInt_eq_floor h0, Int.floor_eq_iff]
  exact ⟨h1, by exact_mod_cast h2⟩

theorem pyInt_eval_neg {q : ℚ} {n : ℤ} (h0 : q < 0) (h1 : (n : ℚ) - 1 < q)
    (h2 : q ≤ (n : ℚ)) : pyInt q = n := by
  unfold pyInt
  rw [if_pos h0, Int.ceil_eq_iff]
  exact ⟨by exact_mod_cast h1, h2⟩

theorem pyInt_half_sub {n : ℕ} (hn : 1080 ≤ n) :
    pyInt ((n : ℚ) / 2 - 540) = (n / 2 : ℕ) - 540 := by
  have hmod : n % 2 < 2 := Nat.mod_lt _ two_pos
  have hsplit : n = 2 * (n / 2) + n % 2 := (Nat.div_add_mod n 2).symm
  have hq : (n : ℚ) = 2 * ((n / 2 : ℕ) : ℚ) + ((n % 2 : ℕ) : ℚ) := by exact_mod_cast hsplit
  have hr0 : (0 : ℚ) ≤ ((n % 2 : ℕ) : ℚ) := by positivity
  have hr2 : ((n % 2 : ℕ) : ℚ) < 2 := by exact_mod_cast hmod
  have hm : 540 ≤ n / 2 := by omega
  have hm' : (540 : ℚ) ≤ ((n / 2 : ℕ) : ℚ) := by exact_mod_cast hm
  have hcast : ((((n / 2 : ℕ) : ℤ) - 540 : ℤ) : ℚ) = ((n / 2 : ℕ) : ℚ) - 540 := by
    norm_cast
  apply pyInt_eval_nonneg
  · rw [hq]; linarith
  · rw [hcast, hq]; linarith
  · rw [hcast, hq]; linarith

theorem pyInt_half_add (n : ℕ) :
    pyInt ((n : ℚ) / 2 + 540) = (n / 2 : ℕ) + 540 := by
  have hmod : n % 2 < 2 := Nat.mod_lt _ two_pos
  have hsplit : n = 2 * (n / 2) + n % 2 := (Nat.div_add_mod n 2).symm
  have hq : (n : ℚ) = 2 * ((n / 2 : ℕ) : ℚ) + ((n % 2 : ℕ) : ℚ) := by exact_mod_cast hsplit
  have hr0 : (0 : ℚ) ≤ ((n % 2 : ℕ) : ℚ) := by positivity
  have hr2 : ((n % 2 : ℕ) : ℚ) < 2 := by exact_mod_cast hmod
  have hcast : ((((n / 2 : ℕ) : ℤ) + 540 : ℤ) : ℚ) = ((n / 2 : ℕ) : ℚ) + 540 := by
    norm_cast
  apply pyInt_eval_nonneg
  · positivity
  · rw [hcast, hq]; linarith
  · rw [hcast, hq]; linarith

theorem center_crop_len {n : ℕ} (hn : 1080 ≤ n) :
    npSliceLen n (pyInt ((n : ℚ) / 2 - 540)) (pyInt ((n : ℚ) / 2 + 540)) = 1080 := by
  rw [pyInt_half_sub hn, pyInt_half_add]
  have hm : 540 ≤ n / 2 := by omega
  have hub : n / 2 + 540 ≤ n := by omega
  unfold npSliceLen npIdx
  split_ifs <;> omega

/-! ### Claims -/

/-- C6: the clamp `x1 ↦ max(0, min(w−1, x1))`, `x2 ↦ max(0, min(w, x2))`
(likewise for `y` with `h`) is idempotent for every rectangle and every
positive frame size, and is the identity on every rectangle inside the
frame bounds (`0 ≤ x1 < x2 ≤ w`, `0 ≤ y1 < y2 ≤ h`). -/
theorem clamp_idempotent_identity (w h : ℤ) (r : Rect) (hw : 0 < w) (hh : 0 < h) :
    clampRect w h (clampRect w h r) = clampRect w h r ∧
    (0 ≤ r.x1 → r.x1 < r.x2 → r.x2 ≤ w → 0 ≤ r.y1 → r.y1 < r.y2 → r.y2 ≤ h →
      clampRect w h r = r) := by
  obtain ⟨rx1, ry1, rx2, ry2⟩ := r
  simp only [clampRect, Rect.mk.injEq]
  constructor
  · refine ⟨?_, ?_, ?_, ?_⟩ <;> omega
  · intro h1 h2 h3 h4 h5 h6
    refine ⟨?_, ?_, ?_, ?_⟩ <;> omega

/-- Witness for C6 at `w = h = 100`, `r = (1, 2, 3, 4)`. -/
theorem clamp_idempotent_identity_witness :
    clampRect 100 100 (clampRect 100 100 ⟨1, 2, 3, 4⟩) = clampRect 100 100 ⟨1, 2, 3, 4⟩ ∧
    clampRect 100 100 ⟨1, 2, 3, 4⟩ = ⟨1, 2, 3, 4⟩ := by
  obtain ⟨h1, h2⟩ := clamp_idempotent_identity 100 100 ⟨1, 2, 3, 4⟩ (by decide) (by decide)
  exact ⟨h1, h2 (by decide) (by decide) (by decide) (by decide) (by decide) (by decide)⟩

/-- C10: whenever the detector is invoked on a frame with `w ≥ 1` and
`h ≥ 1`, the clamped webcam-zone coordinates satisfy
`0 ≤ x1c < x2c ≤ w` and `0 ≤ y1c < y2c ≤ h`, so the ROI handed to
grayscale conversion and detection is a non-empty in-bounds sub-region. -/
theorem roi_in_bounds (e : Env) (clip : LoadedClip) (hw : 1 ≤ clip.w) (hh : 1 ≤ clip.h)
    (hinv : (is_face_in_webcam_zone e clip).detectorInvoked = true) :
    0 ≤ (clampRect (clip.w : ℤ) (clip.h : ℤ) WEBCAM_COORDS).x1 ∧
    (clampRect (clip.w : ℤ) (clip.h : ℤ) WEBCAM_COORDS).x1 <
      (clampRect (clip.w : ℤ) (clip.h : ℤ) WEBCAM_COORDS).x2 ∧
    (clampRect (clip.w : ℤ) (clip.h : ℤ) WEBCAM_COORDS).x2 ≤ (clip.w : ℤ) ∧
    0 ≤ (clampRect (clip.w : ℤ) (clip.h : ℤ) WEBCAM_COORDS).y1 ∧
    (clampRect (clip.w : ℤ) (clip.h : ℤ) WEBCAM_COORDS).y1 <
      (clampRect (clip.w : ℤ) (clip.h : ℤ) WEBCAM_COORDS).y2 ∧
    (clampRect (clip.w : ℤ) (clip.h : ℤ) WEBCAM_COORDS).y2 ≤ (clip.h : ℤ) := by
  have hw' : (1 : ℤ) ≤ (clip.w : ℤ) := by exact_mod_cast hw
  have hh' : (1 : ℤ) ≤ (clip.h : ℤ) := by exact_mod_cast hh
  simp only [clampRect, WEBCAM_COORDS]
  refine ⟨?_, ?_, ?_, ?_, ?_, ?_⟩ <;> omega

/-- Witness for C10 on a working environment with a 1920 × 1080 frame. -/
theorem roi_in_bounds_witness :
    0 ≤ (clampRect 1920 1080 WEBCAM_COORDS).x1 ∧
    (clampRect 1920 1080 WEBCAM_COORDS).x1 < (clampRect 1920 1080 WEBCAM_COORDS).x2 ∧
    (clampRect 1920 1080 WEBCAM_COORDS).x2 ≤ 1920 ∧
    0 ≤ (clampRect 1920 1080 WEBCAM_COORDS).y1 ∧
    (clampRect 1920 1080 WEBCAM_COORDS).y1 < (clampRect 1920 1080 WEBCAM_COORDS).y2 ∧
    (clampRect 1920 1080 WEBCAM_COORDS).y2 ≤ 1080 :=
  roi_in_bounds
    ⟨10, 1920, 1080, true, true, true, true, true, true, true⟩
    ⟨0, 10, 1920, 1080, 0⟩ (by decide) (by decide) (by decide)

/-- C2 counterexample: a first frame narrower than `WEBCAM_COORDS.x1 = 5`
(here 4 × 300) does **not** make the clamped zone degenerate — the clamp
pulls `x1` to `w − 1 = 3` and `x2` to `w = 4` — so the classifier invokes
the detector and returns its verdict (here `true`) instead of returning
`false` without invoking it. -/
theorem narrow_frame_invokes_detector :
    (is_face_in_webcam_zone ⟨10, 4, 300, true, true, true, true, true, true, true⟩
      ⟨0, 10, 4, 300, 0⟩).detectorInvoked = true ∧
    (is_face_in_webcam_zone ⟨10, 4, 300, true, true, true, true, true, true, true⟩
      ⟨0, 10, 4, 300, 0⟩).result = Except.ok true :=
  ⟨rfl, rfl⟩

/-- C2 (amended): when cv2 is available, the cascade file exists and the
first frame decodes, the clamped webcam zone is degenerate **iff** the
frame has zero width or zero height (a narrow frame of positive width is
not degenerate), and on a degenerate zone the classifier returns `false`
without invoking the detector and without raising an error. -/
theorem degenerate_zone_returns_false (e : Env) (clip : LoadedClip)
    (h1 : e.cv2Available = true) (h2 : e.cascadeExists = true)
    (h3 : e.frameExtractOk = true) :
    (((clampRect (clip.w : ℤ) (clip.h : ℤ) WEBCAM_COORDS).x2 ≤
        (clampRect (clip.w : ℤ) (clip.h : ℤ) WEBCAM_COORDS).x1 ∨
      (clampRect (clip.w : ℤ) (clip.h : ℤ) WEBCAM_COORDS).y2 ≤
        (clampRect (clip.w : ℤ) (clip.h : ℤ) WEBCAM_COORDS).y1) ↔
      (clip.w = 0 ∨ clip.h = 0)) ∧
    ((clip.w = 0 ∨ clip.h = 0) →
      (is_face_in_webcam_zone e clip).result = Except.ok false ∧
      (is_face_in_webcam_zone e clip).detectorInvoked = false) := by
  have hiff : (((clampRect (clip.w : ℤ) (clip.h : ℤ) WEBCAM_COORDS).x2 ≤
        (clampRect (clip.w : ℤ) (clip.h : ℤ) WEBCAM_COORDS).x1 ∨
      (clampRect (clip.w : ℤ) (clip.h : ℤ) WEBCAM_COORDS).y2 ≤
        (clampRect (clip.w : ℤ) (clip.h : ℤ) WEBCAM_COORDS).y1) ↔
      (clip.w = 0 ∨ clip.h = 0)) := by
    simp only [clampRect, WEBCAM_COORDS]
    omega
  refine ⟨hiff, fun hdeg => ?_⟩
  have hd := hiff.mpr hdeg
  simp [is_face_in_webcam_zone, h1, h2, h3, hd]

/-- Witness for C2 (amended) on a zero-width frame. -/
theorem degenerate_zone_returns_false_witness :
    (is_face_in_webcam_zone ⟨10, 0, 300, true, true, true, true, true, true, true⟩
      ⟨0, 10, 0, 300, 0⟩).result = Except.ok false ∧
    (is_face_in_webcam_zone ⟨10, 0, 300, true, true, true, true, true, true, true⟩
      ⟨0, 10, 0, 300, 0⟩).detectorInvoked = false :=
  (degenerate_zone_returns_false _ ⟨0, 10, 0, 300, 0⟩ rfl rfl rfl).2 (Or.inl rfl)

/-- C9: the cv2-availability, cascade-file and first-frame checks all
precede the zone clamp, so they raise even when the frame dimensions
would make the zone degenerate; conversely a returned boolean (including
the degenerate-zone `false`) is only reachable when all three checks
pass. -/
theorem fatal_checks_precede_clamp (e : Env) (clip : LoadedClip) :
    ((e.cv2Available = false ∨ e.cascadeExists = false ∨ e.frameExtractOk = false) →
      (∃ msg, (is_face_in_webcam_zone e clip).result = Except.error msg) ∧
      (is_face_in_webcam_zone e clip).detectorInvoked = false) ∧
    (∀ b, (is_face_in_webcam_zone e clip).result = Except.ok b →
      e.cv2Available = true ∧ e.cascadeExists = true ∧ e.frameExtractOk = true) := by
  cases hc : e.cv2Available <;> cases hk : e.cascadeExists <;>
    cases hf : e.frameExtractOk <;>
      simp [is_face_in_webcam_zone, hc, hk, hf]

/-- Witness for C9: missing cv2 on a zero-sized (degenerate-zone) frame
still yields the fatal error, not the degenerate-zone `false`. -/
theorem fatal_checks_precede_clamp_witness :
    (∃ msg, (is_face_in_webcam_zone ⟨10, 0, 0, false, true, true, true, true, true, true⟩
      ⟨0, 10, 0, 0, 0⟩).result = Except.error msg) ∧
    (is_face_in_webcam_zone ⟨10, 0, 0, false, true, true, true, true, true, true⟩
      ⟨0, 10, 0, 0, 0⟩).detectorInvoked = false :=
  (fatal_checks_precede_clamp ⟨10, 0, 0, false, true, true, true, true, true, true⟩
    ⟨0, 10, 0, 0, 0⟩).1 (Or.inl rfl)

theorem pyInt_const_33 : pyInt ((RESOLUTION.2 : ℚ) * 0.33) = 633 := by
  apply pyInt_eval_nonneg <;> norm_num [RESOLUTION]

/-- C3 (amended): for every source frame the webcam layer's scaled height
is `int(1920 * 0.33) = 633` (Python `int()` truncates, it does not
round to 634), its vertical position is 0, and it is horizontally
centered in the target width: the left margin and the right margin differ
by at most one pixel (floor division). -/
theorem webcam_layer_geometry (w h : ℕ) :
    (extract_webcam w h).h = 633 ∧ (extract_webcam w h).y = 0 ∧
    (extract_webcam w h).x ≤
      (RESOLUTION.1 : ℤ) - ((extract_webcam w h).x + ((extract_webcam w h).w : ℤ)) ∧
    (RESOLUTION.1 : ℤ) - ((extract_webcam w h).x + ((extract_webcam w h).w : ℤ)) ≤
      (extract_webcam w h).x + 1 := by
  have hh : (extract_webcam w h).h = (pyInt ((RESOLUTION.2 : ℚ) * 0.33)).toNat := rfl
  have hx : (extract_webcam w h).x =
      pyFloorDiv ((RESOLUTION.1 : ℤ) - ((extract_webcam w h).w : ℤ)) 2 := rfl
  refine ⟨by rw [hh, pyInt_const_33]; rfl, rfl, ?_, ?_⟩ <;>
    · rw [hx]
      unfold pyFloorDiv
      rw [Int.fdiv_eq_ediv _ (by norm_num)]
      omega

/-- C3 counterexample: on a 1920 × 1080 source frame (and in fact on every
frame) the webcam layer's height is 633, not `round(1920 × 0.33) = 634`:
the code computes `int(RESOLUTION[1] * 0.33)`, which truncates 633.6. -/
theorem webcam_height_not_634 : (extract_webcam 1920 1080).h ≠ 634 := by
  have hh : (extract_webcam 1920 1080).h = (pyInt ((RESOLUTION.2 : ℚ) * 0.33)).toNat := rfl
  rw [hh, pyInt_const_33]
  decide

theorem movResizeH_width_ge {w h newH t : ℕ} (hh : 0 < h) (ht : t * h ≤ newH * w) :
    t ≤ (movResizeH w h newH).1 := by
  unfold movResizeH
  have h0 : (0 : ℚ) ≤ (w : ℚ) * (newH : ℚ) / (h : ℚ) := by positivity
  have hfl : ((t : ℕ) : ℤ) ≤ ⌊(w : ℚ) * (newH : ℚ) / (h : ℚ)⌋ := by
    rw [Int.le_floor]
    rw [le_div_iff (by positivity : (0 : ℚ) < (h : ℚ))]
    have h' : ((t * h : ℕ) : ℚ) ≤ ((newH * w : ℕ) : ℚ) := by exact_mod_cast ht
    push_cast at h'
    push_cast
    linarith
  rw [pyInt_eq_floor h0]
  omega

/-- C4 (amended): for every source frame whose aspect ratio is at least
9:16 (`1080 * h ≤ 1920 * w`, which covers 16:9, 4:3, 1:1 and 9:16), the
full-bleed layer is exactly 1080 × 1920 at position (0, 0); sources
narrower than 9:16 produce a narrower layer (see the counterexample). -/
theorem full_bleed_fills_target (w h : ℕ) (hh : 0 < h) (hw : 1080 * h ≤ 1920 * w) :
    full_screen_clip w h = ⟨1080, 1920, 0, 0⟩ := by
  have hn : 1080 ≤ (movResizeH w h RESOLUTION.2).1 :=
    movResizeH_width_ge hh (by simpa [RESOLUTION] using hw)
  have heta : full_screen_clip w h =
      ⟨(full_screen_clip w h).w, (full_screen_clip w h).h, 0, 0⟩ := rfl
  have hwidth : (full_screen_clip w h).w =
      npSliceLen (movResizeH w h RESOLUTION.2).1
        (pyInt (((movResizeH w h RESOLUTION.2).1 : ℚ) / 2 - (RESOLUTION.1 : ℚ) / 2))
        (pyInt (((movResizeH w h RESOLUTION.2).1 : ℚ) / 2 + (RESOLUTION.1 : ℚ) / 2)) := rfl
  have hheight : (full_screen_clip w h).h =
      npSliceLen RESOLUTION.2
        (pyInt ((RESOLUTION.2 : ℚ) / 2 - (RESOLUTION.2 : ℚ) / 2))
        (pyInt ((RESOLUTION.2 : ℚ) / 2 + (RESOLUTION.2 : ℚ) / 2)) := rfl
  have e540 : (RESOLUTION.1 : ℚ) / 2 = 540 := by norm_num [RESOLUTION]
  have e0 : (RESOLUTION.2 : ℚ) / 2 - (RESOLUTION.2 : ℚ) / 2 = ((0 : ℤ) : ℚ) := by norm_num
  have e1920 : (RESOLUTION.2 : ℚ) / 2 + (RESOLUTION.2 : ℚ) / 2 = ((1920 : ℤ) : ℚ) := by
    norm_num [RESOLUTION]
  rw [heta, hwidth, hheight, e540, e0, e1920, pyInt_intCast, pyInt_intCast,
    center_crop_len hn]
  decide

/-- Witness for C4 (amended) at the claim's four aspect ratios:
16:9 (1920 × 1080), 4:3 (1440 × 1080), 1:1 (1080 × 1080) and
9:16 (1080 × 1920). -/
theorem full_bleed_fills_target_witness :
    full_screen_clip 1920 1080 = ⟨1080, 1920, 0, 0⟩ ∧
    full_screen_clip 1440 1080 = ⟨1080, 1920, 0, 0⟩ ∧
    full_screen_clip 1080 1080 = ⟨1080, 1920, 0, 0⟩ ∧
    full_screen_clip 1080 1920 = ⟨1080, 1920, 0, 0⟩ :=
  ⟨full_bleed_fills_target 1920 1080 (by norm_num) (by norm_num),
   full_bleed_fills_target 1440 1080 (by norm_num) (by norm_num),
   full_bleed_fills_target 1080 1080 (by norm_num) (by norm_num),
   full_bleed_fills_target 1080 1920 (by norm_num) (by norm_num)⟩

/-- C4 counterexample: a 500 × 1920 source (aspect ratio narrower than
9:16) is scaled to 500 × 1920, and the center crop then yields width
290 ≠ 1080 (numpy treats the negative slice start as counting from the
end), so the full-bleed layer does not fill the target frame for every
aspect ratio. -/
theorem full_bleed_narrow_source_not_target :
    (full_screen_clip 500 1920).w = 290 ∧ (full_screen_clip 500 1920).w ≠ 1080 := by
  have hA : (movResizeH 500 1920 RESOLUTION.2).1 =
      (pyInt (((500 : ℕ) : ℚ) * ((RESOLUTION.2 : ℕ) : ℚ) / ((1920 : ℕ) : ℚ))).toNat := rfl
  have hA' : (movResizeH 500 1920 RESOLUTION.2).1 = 500 := by
    rw [hA, show ((500 : ℕ) : ℚ) * ((RESOLUTION.2 : ℕ) : ℚ) / ((1920 : ℕ) : ℚ) =
      ((500 : ℤ) : ℚ) by norm_num [RESOLUTION], pyInt_intCast]
    decide
  have hwidth : (full_screen_clip 500 1920).w =
      npSliceLen (movResizeH 500 1920 RESOLUTION.2).1
        (pyInt (((movResizeH 500 1920 RESOLUTION.2).1 : ℚ) / 2 - (RESOLUTION.1 : ℚ) / 2))
        (pyInt (((movResizeH 500 1920 RESOLUTION.2).1 : ℚ) / 2 + (RESOLUTION.1 : ℚ) / 2)) := rfl
  rw [hwidth, hA']
  rw [show ((500 : ℕ) : ℚ) / 2 - (RESOLUTION.1 : ℚ) / 2 = ((-290 : ℤ) : ℚ) by
    norm_num [RESOLUTION]]
  rw [show ((500 : ℕ) : ℚ) / 2 + (RESOLUTION.1 : ℚ) / 2 = ((790 : ℤ) : ℚ) by
    norm_num [RESOLUTION]]
  rw [pyInt_intCast, pyInt_intCast]
  decide

lemma is_face_error_of_missing (e : Env) (clip : LoadedClip)
    (hfail : e.cv2Available = false ∨ e.cascadeExists = false ∨ e.frameExtractOk = false) :
    ∃ msg, (is_face_in_webcam_zone e clip).result = Except.error msg := by
  cases hc : e.cv2Available <;> cases hk : e.cascadeExists <;>
    cases hf : e.frameExtractOk <;> simp [is_face_in_webcam_zone, hc, hk, hf] <;>
      simp [hc, hk, hf] at hfail

lemma is_face_ok_of_checks (e : Env) (clip : LoadedClip) (h1 : e.cv2Available = true)
    (h2 : e.cascadeExists = true) (h3 : e.frameExtractOk = true) :
    ∃ b, (is_face_in_webcam_zone e clip).result = Except.ok b := by
  unfold is_face_in_webcam_zone
  rw [h1, h2, h3]
  simp only [Bool.true_eq_false, if_false]
  split
  · exact ⟨false, rfl⟩
  · exact ⟨e.detectorFindsFace, rfl⟩

lemma process_eval_error (e : Env) (o : String) (m : ℚ) (msg : String)
    (hres : (is_face_in_webcam_zone e (load_clip e)).result = Except.error msg) :
    process_gameplay_clip e o m = ⟨Except.error msg, none, [sourceClipId]⟩ := by
  unfold process_gameplay_clip
  dsimp only
  rw [hres]

lemma process_eval_ok_render (e : Env) (o : String) (m : ℚ) (b : Bool)
    (hres : (is_face_in_webcam_zone e (load_clip e)).result = Except.ok b)
    (hr : e.renderOk = true) :
    process_gameplay_clip e o m =
      ⟨Except.ok o, some (composePlan b (load_clip e)),
       [sourceClipId, composedId, append_end_sequence e.outroExists composedId]⟩ := by
  unfold process_gameplay_clip
  dsimp only
  rw [hres]
  dsimp only
  rw [if_pos hr]

lemma process_eval_ok_norender (e : Env) (o : String) (m : ℚ) (b : Bool)
    (hres : (is_face_in_webcam_zone e (load_clip e)).result = Except.ok b)
    (hr : e.renderOk = false) :
    process_gameplay_clip e o m =
      ⟨Except.error "write_videofile a echoue", some (composePlan b (load_clip e)), []⟩ := by
  unfold process_gameplay_clip
  dsimp only
  rw [hres]
  dsimp only
  rw [if_neg (by simp [hr])]

lemma process_plan_inv (e : Env) (o : String) (m : ℚ) (p : Plan)
    (hp : (process_gameplay_clip e o m).plan = some p) :
    ∃ b, (is_face_in_webcam_zone e (load_clip e)).result = Except.ok b ∧
      p = composePlan b (load_clip e) := by
  cases hres : (is_face_in_webcam_zone e (load_clip e)).result with
  | error msg =>
    rw [process_eval_error e o m msg hres] at hp
    cases hp
  | ok b =>
    refine ⟨b, rfl, ?_⟩
    cases hr : e.renderOk with
    | true =>
      rw [process_eval_ok_render e o m b hres hr] at hp
      cases hp
      rfl
    | false =>
      rw [process_eval_ok_norender e o m b hres hr] at hp
      cases hp
      rfl

/-- C1: whenever a run reaches composition, exactly one of two plans is
built from the classification boolean: `true` gives the 5-layer list
[background, gameplay, webcam, title, caption] (background bottom-most),
`false` gives the 3-layer list [full-bleed, title, caption] without the
background; in both cases the audio is the trimmed source clip's track. -/
theorem plan_selection_correct (e : Env) (o : String) (m : ℚ) (p : Plan)
    (hp : (process_gameplay_clip e o m).plan = some p) :
    p.audioId = (load_clip e).audioId ∧
    (p.layers = [LayerElem.background,
        LayerElem.gameplayL (extract_gameplay (load_clip e).w (load_clip e).h),
        LayerElem.webcamL (extract_webcam (load_clip e).w (load_clip e).h),
        LayerElem.titleL, LayerElem.captionL] ∨
      p.layers = [LayerElem.fullBleedL (full_screen_clip (load_clip e).w (load_clip e).h),
        LayerElem.titleL, LayerElem.captionL]) ∧
    ((is_face_in_webcam_zone e (load_clip e)).result = Except.ok true →
      p.layers = [LayerElem.background,
        LayerElem.gameplayL (extract_gameplay (load_clip e).w (load_clip e).h),
        LayerElem.webcamL (extract_webcam (load_clip e).w (load_clip e).h),
        LayerElem.titleL, LayerElem.captionL]) ∧
    ((is_face_in_webcam_zone e (load_clip e)).result = Except.ok false →
      p.layers = [LayerElem.fullBleedL (full_screen_clip (load_clip e).w (load_clip e).h),
        LayerElem.titleL, LayerElem.captionL]) := by
  obtain ⟨b, hb, hpe⟩ := process_plan_inv e o m p hp
  subst hpe
  cases b <;> simp [composePlan, hb]

/-- Witness for C1 on a 200 s 1920 × 1080 source with a detected face. -/
theorem plan_selection_correct_witness :
    (composePlan true (load_clip ⟨200, 1920, 1080, true, true, true, true, true, true,
        true⟩)).audioId =
      (load_clip ⟨200, 1920, 1080, true, true, true, true, true, true, true⟩).audioId ∧
    ((composePlan true (load_clip ⟨200, 1920, 1080, true, true, true, true, true, true,
        true⟩)).layers = [LayerElem.background,
        LayerElem.gameplayL (extract_gameplay
          (load_clip ⟨200, 1920, 1080, true, true, true, true, true, true, true⟩).w
          (load_clip ⟨200, 1920, 1080, true, true, true, true, true, true, true⟩).h),
        LayerElem.webcamL (extract_webcam
          (load_clip ⟨200, 1920, 1080, true, true, true, true, true, true, true⟩).w
          (load_clip ⟨200, 1920, 1080, true, true, true, true, true, true, true⟩).h),
        LayerElem.titleL, LayerElem.captionL] ∨
      (composePlan true (load_clip ⟨200, 1920, 1080, true, true, true, true, true, true,
        true⟩)).layers =
        [LayerElem.fullBleedL (full_screen_clip
          (load_clip ⟨200, 1920, 1080, true, true, true, true, true, true, true⟩).w
          (load_clip ⟨200, 1920, 1080, true, true, true, true, true, true, true⟩).h),
        LayerElem.titleL, LayerElem.captionL]) ∧
    ((is_face_in_webcam_zone ⟨200, 1920, 1080, true, true, true, true, true, true, true⟩
        (load_clip ⟨200, 1920, 1080, true, true, true, true, true, true, true⟩)).result =
        Except.ok true →
      (composePlan true (load_clip ⟨200, 1920, 1080, true, true, true, true, true, true,
        true⟩)).layers = [LayerElem.background,
        LayerElem.gameplayL (extract_gameplay
          (load_clip ⟨200, 1920, 1080, true, true, true, true, true, true, true⟩).w
          (load_clip ⟨200, 1920, 1080, true, true, true, true, true, true, true⟩).h),
        LayerElem.webcamL (extract_webcam
          (load_clip ⟨200, 1920, 1080, true, true, true, true, true, true, true⟩).w
          (load_clip ⟨200, 1920, 1080, true, true, true, true, true, true, true⟩).h),
        LayerElem.titleL, LayerElem.captionL]) ∧
    ((is_face_in_webcam_zone ⟨200, 1920, 1080, true, true, true, true, true, true, true⟩
        (load_clip ⟨200, 1920, 1080, true, true, true, true, true, true, true⟩)).result =
        Except.ok false →
      (composePlan true (load_clip ⟨200, 1920, 1080, true, true, true, true, true, true,
        true⟩)).layers =
        [LayerElem.fullBleedL (full_screen_clip
          (load_clip ⟨200, 1920, 1080, true, true, true, true, true, true, true⟩).w
          (load_clip ⟨200, 1920, 1080, true, true, true, true, true, true, true⟩).h),
        LayerElem.titleL, LayerElem.captionL]) :=
  plan_selection_correct ⟨200, 1920, 1080, true, true, true, true, true, true, true⟩
    "out.mp4" 240 _ rfl

/-- C5: the loaded clip is trimmed to `min(duration, 180)` starting at 0,
the plan's duration is that trimmed duration, and the caller-supplied
`max_duration_seconds` argument has no effect on the run's outcome. -/
theorem trim_cap_semantics (e : Env) (o : String) (m1 m2 : ℚ) (p : Plan)
    (hp : (process_gameplay_clip e o m1).plan = some p) :
    (load_clip e).duration = min e.duration MAX_DURATION ∧
    (load_clip e).start = 0 ∧
    process_gameplay_clip e o m1 = process_gameplay_clip e o m2 ∧
    p.duration = min e.duration MAX_DURATION := by
  have hdur : (load_clip e).duration = min e.duration MAX_DURATION := by
    unfold load_clip VideoFileClip subclip
    dsimp only
    split_ifs with hlt
    · rw [min_eq_right (le_of_lt hlt)]
      exact sub_zero _
    · rw [min_eq_left (not_lt.mp hlt)]
  have hstart : (load_clip e).start = 0 := by
    unfold load_clip VideoFileClip subclip
    dsimp only
    split_ifs with hlt
    · exact zero_add 0
    · rfl
  obtain ⟨b, hb, hpe⟩ := process_plan_inv e o m1 p hp
  subst hpe
  have hpd : (composePlan b (load_clip e)).duration = (load_clip e).duration := by
    cases b <;> rfl
  exact ⟨hdur, hstart, rfl, by rw [hpd, hdur]⟩

/-- Witness for C5: a 200 s source is trimmed to 180 s even though the
caller passed 240 (and 120) as `max_duration_seconds`. -/
theorem trim_cap_semantics_witness :
    (load_clip ⟨200, 1920, 1080, true, true, true, true, true, true, true⟩).duration =
      min 200 MAX_DURATION ∧
    (load_clip ⟨200, 1920, 1080, true, true, true, true, true, true, true⟩).start = 0 ∧
    process_gameplay_clip ⟨200, 1920, 1080, true, true, true, true, true, true, true⟩
        "out.mp4" 240 =
      process_gameplay_clip ⟨200, 1920, 1080, true, true, true, true, true, true, true⟩
        "out.mp4" 120 ∧
    (composePlan true (load_clip ⟨200, 1920, 1080, true, true, true, true, true, true,
      true⟩)).duration = min 200 MAX_DURATION :=
  trim_cap_semantics ⟨200, 1920, 1080, true, true, true, true, true, true, true⟩
    "out.mp4" 240 120 _ rfl

/-- C7: if cv2 is unavailable, the cascade file is missing, or the first
frame cannot be extracted, `process_gameplay_clip` propagates the fatal
error to the caller (it never downgrades to "no face"), no composition is
built, and the source clip is the one resource closed before the error
surfaces. -/
theorem classifier_error_propagates (e : Env) (o : String) (m : ℚ)
    (hfail : e.cv2Available = false ∨ e.cascadeExists = false ∨ e.frameExtractOk = false) :
    (∃ msg, (process_gameplay_clip e o m).result = Except.error msg) ∧
    (process_gameplay_clip e o m).closes = [sourceClipId] ∧
    (process_gameplay_clip e o m).plan = none := by
  obtain ⟨msg, hmsg⟩ := is_face_error_of_missing e (load_clip e) hfail
  rw [process_eval_error e o m msg hmsg]
  exact ⟨⟨msg, rfl⟩, rfl, rfl⟩

/-- Witness for C7 with cv2 unavailable. -/
theorem classifier_error_propagates_witness :
    (∃ msg, (process_gameplay_clip ⟨100, 1920, 1080, false, true, true, true, true, true,
      true⟩ "out.mp4" 240).result = Except.error msg) ∧
    (process_gameplay_clip ⟨100, 1920, 1080, false, true, true, true, true, true, true⟩
      "out.mp4" 240).closes = [sourceClipId] ∧
    (process_gameplay_clip ⟨100, 1920, 1080, false, true, true, true, true, true, true⟩
      "out.mp4" 240).plan = none :=
  classifier_error_propagates ⟨100, 1920, 1080, false, true, true, true, true, true, true⟩
    "out.mp4" 240 (Or.inl rfl)

/-- C8 counterexample: a run whose rendering step fails exits with the
error but an empty close trace — the source clip (id 0), the composite
and the final sequence are each released zero times, not exactly once,
on this failure path. -/
theorem render_failure_closes_nothing :
    (∃ msg, (process_gameplay_clip ⟨200, 1920, 1080, true, true, true, true, true, true,
      false⟩ "out.mp4" 240).result = Except.error msg) ∧
    (process_gameplay_clip ⟨200, 1920, 1080, true, true, true, true, true, true, false⟩
      "out.mp4" 240).closes = [] ∧
    ((process_gameplay_clip ⟨200, 1920, 1080, true, true, true, true, true, true, false⟩
      "out.mp4" 240).closes.count sourceClipId = 0) :=
  ⟨⟨"write_videofile a echoue", rfl⟩, rfl, rfl⟩

/-- C8 (amended): the close trace depends on the exit path — on success
`clip`, `composed` and `final` are closed in order (when no outro exists
`final` *is* `composed`, so that one composite is closed twice); on a
classifier error only the source clip is closed; on a rendering failure
nothing is closed. -/
theorem close_discipline (e : Env) (o : String) (m : ℚ) :
    ((process_gameplay_clip e o m).result = Except.ok o →
      (process_gameplay_clip e o m).closes =
        [sourceClipId, composedId, append_end_sequence e.outroExists composedId]) ∧
    ((∃ msg, (is_face_in_webcam_zone e (load_clip e)).result = Except.error msg) →
      (process_gameplay_clip e o m).closes = [sourceClipId]) ∧
    (e.renderOk = false →
      (∃ b, (is_face_in_webcam_zone e (load_clip e)).result = Except.ok b) →
      (process_gameplay_clip e o m).closes = []) := by
  refine ⟨?_, ?_, ?_⟩
  · intro hok
    cases hres : (is_face_in_webcam_zone e (load_clip e)).result with
    | error msg =>
      rw [process_eval_error e o m msg hres] at hok
      simp at hok
    | ok b =>
      cases hr : e.renderOk with
      | false =>
        rw [process_eval_ok_norender e o m b hres hr] at hok
        simp at hok
      | true =>
        rw [process_eval_ok_render e o m b hres hr]
  · rintro ⟨msg, hmsg⟩
    rw [process_eval_error e o m msg hmsg]
  · rintro hr ⟨b, hb⟩
    rw [process_eval_ok_norender e o m b hb hr]

/-- Witness for C8 (amended): a successful run with an outro closes
resources 0, 1, 2 in order. -/
theorem close_discipline_witness :
    (process_gameplay_clip ⟨200, 1920, 1080, true, true, true, true, true, true, true⟩
      "out.mp4" 240).closes =
      [sourceClipId, composedId, append_end_sequence true composedId] :=
  (close_discipline ⟨200, 1920, 1080, true, true, true, true, true, true, true⟩
    "out.mp4" 240).1 rfl
